import Mathlib

/-!
Verification development for the PDF image extractor
(`scripts/pdf_image_extractor_with_overlay_grid_with_panout.py`).

The numeric core of the program is embedded shallowly:
* Python `int()` truncation toward zero on exact values becomes `pyInt : ℚ → ℤ`;
* `fitz.Rect`-style rectangles become the `Rect` structure;
* the coordinate conversions of `InteractiveImageLabel.image_to_pdf_coords`,
  `InteractiveImageLabel.widget_to_image_coords` and of the marker placement in
  `PDFImageExtractor.create_grid_overlay` become rational-arithmetic functions;
* the regex `-?\d+\.?\d*` together with `re.findall` becomes `findNumbers`;
* the grid-line while-loops of `create_grid_overlay` become the fuel-indexed
  `gridWalk` (fuel exhaustion is `none`, a finished loop is `some lines`).
-/

/-- Python `int()` on an exact rational value: truncation toward zero
(floor for nonnegative arguments, ceiling for negative ones). -/
def pyInt (q : ℚ) : ℤ := if 0 ≤ q then ⌊q⌋ else ⌈q⌉

/-- A `fitz.Rect`: document-space rectangle with corners `(x0, y0)` and `(x1, y1)`. -/
structure Rect where
  x0 : ℚ
  y0 : ℚ
  x1 : ℚ
  y1 : ℚ
deriving DecidableEq, Repr

/-- `fitz.Rect.width`. -/
def Rect.width (r : Rect) : ℚ := r.x1 - r.x0

/-- `fitz.Rect.height`. -/
def Rect.height (r : Rect) : ℚ := r.y1 - r.y0

/-- The guarded per-axis scale of `create_grid_overlay`:
`scale_x = pixmap_width / pdf_width if pdf_width > 0 else 1` (and likewise
for the y axis).  `pix` is the pixmap extent in pixels, `doc` the document
extent of the image rectangle. -/
def safeScale (pix : ℤ) (doc : ℚ) : ℚ := if 0 < doc then (pix : ℚ) / doc else 1

/-- x part of `InteractiveImageLabel.image_to_pdf_coords`:
`pdf_x = img_rect.x0 + image_pos.x() * (img_rect.width / pixmap_width)`,
truncated by `int(...)` when packed into the returned `QPoint`. -/
def image_to_pdf_x (r : Rect) (pixmapWidth : ℚ) (ix : ℤ) : ℤ :=
  pyInt (r.x0 + (ix : ℚ) * (r.width / pixmapWidth))

/-- y part of `InteractiveImageLabel.image_to_pdf_coords`:
`pdf_y = img_rect.y1 - image_pos.y() * (img_rect.height / pixmap_height)`
(PDF coordinates are bottom-up), truncated by `int(...)`. -/
def image_to_pdf_y (r : Rect) (pixmapHeight : ℚ) (iy : ℤ) : ℤ :=
  pyInt (r.y1 - (iy : ℚ) * (r.height / pixmapHeight))

/-- x part of the document-to-pixel conversion used by `create_grid_overlay`
to place grid lines and data-point markers:
`pixel_x = int((pdf_x - img_rect.x0) * scale_x)`. -/
def pdf_to_pixel_x (r : Rect) (scaleX : ℚ) (px : ℚ) : ℤ :=
  pyInt ((px - r.x0) * scaleX)

/-- y part of the document-to-pixel conversion used by `create_grid_overlay`
to place data-point markers: `pixel_y = int((img_rect.y1 - pdf_y) * scale_y)`. -/
def pdf_to_pixel_y (r : Rect) (scaleY : ℚ) (py : ℚ) : ℤ :=
  pyInt ((r.y1 - py) * scaleY)

/-- Round trip of claim C2 on the x axis: convert pixel `px` to a document
coordinate with `image_to_pdf_coords`, then back to a pixel with the
conversion of `create_grid_overlay`. -/
def roundTripX (r : Rect) (pw : ℤ) (px : ℤ) : ℤ :=
  pdf_to_pixel_x r (safeScale pw r.width) ((image_to_pdf_x r (pw : ℚ) px : ℤ) : ℚ)

/-- Round trip of claim C2 on the y axis. -/
def roundTripY (r : Rect) (ph : ℤ) (py : ℤ) : ℤ :=
  pdf_to_pixel_y r (safeScale ph r.height) ((image_to_pdf_y r (ph : ℚ) py : ℤ) : ℚ)

/-! ## The regex `-?\d+\.?\d*` and `re.findall`

`re.findall(r'-?\d+\.?\d*', text)` scans the text left to right; at each
position it attempts a greedy match of: an optional minus sign (kept only if
at least one digit follows), a maximal run of digits, an optional decimal
point, and a maximal (possibly empty) run of trailing digits.  On success the
scan resumes after the match, otherwise one position further. -/

/-- A digit test, matching the regex class `\d` on the ASCII inputs the
program feeds it. -/
def isDig (c : Char) : Bool := c.isDigit

/-- Python `str.strip()` whitespace class (`str.isspace` members that occur
in text): space, tab, newline, carriage return, vertical tab, form feed. -/
def isPySpace (c : Char) : Bool :=
  c = ' ' || c = '\t' || c = '\n' || c = '\r' || c = '\x0b' || c = '\x0c'

/-- Python `str.strip()`: drop leading and trailing whitespace. -/
def pyStrip (l : List Char) : List Char :=
  ((l.dropWhile isPySpace).reverse.dropWhile isPySpace).reverse

/-- One attempted match of `-?\d+\.?\d*` anchored at the head of `s`.
Returns the matched characters and the remaining suffix, or `none` when the
pattern does not match at this position. -/
def matchNumAt (s : List Char) : Option (List Char × List Char) :=
  let core : List Char → Option (List Char × List Char) := fun t =>
    match t with
    | [] => none
    | c :: _ =>
      if isDig c then
        let r1 := t.dropWhile isDig
        match r1 with
        | '.' :: r2 =>
          some (t.takeWhile isDig ++ ['.'] ++ r2.takeWhile isDig, r2.dropWhile isDig)
        | _ => some (t.takeWhile isDig, r1)
      else none
  match s with
  | '-' :: rest =>
    match core rest with
    | some (m, r) => some ('-' :: m, r)
    | none => none
  | _ => core s

/-- The left-to-right scan of `re.findall`, fuelled by the length of the
text (each step consumes at least one character, so that much fuel always
suffices). -/
def findNumbersAux : ℕ → List Char → List (List Char)
  | 0, _ => []
  | _ + 1, [] => []
  | fuel + 1, c :: rest =>
    match matchNumAt (c :: rest) with
    | some (m, r) => m :: findNumbersAux fuel r
    | none => findNumbersAux fuel rest

/-- `re.findall(r'-?\d+\.?\d*', s)`: every non-overlapping match, in text
order. -/
def findNumbers (s : List Char) : List (List Char) := findNumbersAux s.length s

/-- `re.findall` applied to a Python string, as the list of matched
strings. -/
def findall (s : String) : List String :=
  (findNumbers s.data).map (fun l => String.mk l)

/-- Python `str.strip()` on a string. -/
def strip (s : String) : String := String.mk (pyStrip s.data)

/-- Digit run to natural number, most significant digit first. -/
def digitsToNat (cs : List Char) : ℕ :=
  cs.foldl (fun n c => 10 * n + (c.toNat - 48)) 0

/-- The purely textual part of Python `float()` on the token shapes the
regex can emit: an optional minus sign, an integer digit run, an optional
decimal point with an optional fractional digit run.  On success it yields
the sign, the concatenated digit magnitude and the number of fractional
digits; anything else is a `ValueError`, modelled as `none`. -/
def pyFloatParse (s : String) : Option (Bool × ℕ × ℕ) :=
  let signed : List Char × Bool :=
    match s.data with
    | '-' :: r => (r, true)
    | r => (r, false)
  let body := signed.1
  let intPart := body.takeWhile isDig
  let rest := body.dropWhile isDig
  if intPart = [] then none
  else
    match rest with
    | [] => some (signed.2, digitsToNat intPart, 0)
    | '.' :: fr =>
      if fr.all isDig then
        some (signed.2, digitsToNat (intPart ++ fr), fr.length)
      else none
    | _ => none

/-- Python `float()` on the token shapes the regex can emit: the parsed
sign and digits as an exact rational. -/
def pyFloat (s : String) : Option ℚ :=
  (pyFloatParse s).map
    (fun t => (if t.1 then -1 else 1) * ((t.2.1 : ℚ) / (10 : ℚ) ^ t.2.2))

/-! ## Text layer, data points, and the extraction operations -/

/-- A text span as supplied by `page.get_text("dict")`: its string and its
bounding box `(x0, y0, x1, y1)`. -/
structure TextSpan where
  text : String
  x0 : ℚ
  y0 : ℚ
  x1 : ℚ
  y1 : ℚ
deriving DecidableEq, Repr

/-- The text layer's result is nested: a list of blocks, each a list of
lines, each a list of spans (image blocks, which carry no `"lines"` key and
are skipped by the code, are represented as absent). -/
abbrev Blocks := List (List (List TextSpan))

/-- The `value` field of an extracted record: a float for auto-extracted
points, a string (the raw match, or the `"No data"` sentinel) for manual
clicks. -/
inductive Value where
  | num (q : ℚ)
  | str (s : String)
deriving DecidableEq, Repr

/-- One row of `self.extracted_data`. -/
structure DataPoint where
  pdf_x : ℚ
  pdf_y : ℚ
  value : Value
  source : String
  image_index : ℕ
deriving DecidableEq, Repr

/-- The span-loop body of `PDFImageExtractor.extract_data_at_point` for one
line: the first span of the line whose stripped text has a regex match
yields that span's first match, and the `break` then leaves the span loop. -/
def lineFirstValue (line : List TextSpan) : Option String :=
  line.findSome? (fun sp => (findall (strip sp.text)).head?)

/-- The value computed by `PDFImageExtractor.extract_data_at_point`: the
loops over blocks and lines continue after the span-level `break`, so each
later line that contains a match overwrites `extracted_value`. -/
def extractValueAtPoint (blocks : Blocks) : Option String :=
  blocks.foldl
    (fun acc block =>
      block.foldl
        (fun acc2 line =>
          match lineFirstValue line with
          | some v => some v
          | none => acc2)
        acc)
    none

/-- The flattened source encounter order of the spans of a text-layer
result. -/
def allSpans (blocks : Blocks) : List TextSpan :=
  blocks.flatMap (fun b => b.flatMap (fun line => line))

/-- What claim C1 asserts the point query returns: the first numeric match
of the earliest matching span, in flattened source encounter order. -/
def firstValueSpecOrder (blocks : Blocks) : Option String :=
  (allSpans blocks).findSome? (fun sp => (findall (strip sp.text)).head?)

/-- The manual `DataPoint` appended by `extract_data_at_point`: the clicked
PDF point's integer coordinates, the scanned value (or the `"No data"`
sentinel), the `"Manual click"` provenance tag, and the combo-box index of
the displayed image. -/
def manualDataPoint (blocks : Blocks) (pdfX pdfY : ℤ) (currentIndex : ℕ) :
    DataPoint :=
  { pdf_x := (pdfX : ℚ)
    pdf_y := (pdfY : ℚ)
    value := Value.str ((extractValueAtPoint blocks).getD "No data")
    source := "Manual click"
    image_index := currentIndex }

/-- `PDFImageExtractor.auto_extract_data`: for every span of every line of
every block, every regex match that parses as a float becomes one
`DataPoint` at the center of the span's bounding box; a match that fails to
parse is skipped (`except ValueError: continue`). -/
def autoExtractData (blocks : Blocks) (currentIndex : ℕ) : List DataPoint :=
  blocks.flatMap (fun block =>
    block.flatMap (fun line =>
      line.flatMap (fun sp =>
        (findall (strip sp.text)).filterMap (fun number =>
          (pyFloat number).map (fun v =>
            { pdf_x := (sp.x0 + sp.x1) / 2
              pdf_y := (sp.y0 + sp.y1) / 2
              value := Value.num v
              source := "Auto-extracted"
              image_index := currentIndex })))))

/-! ## View state: wheel zoom, slider zoom, widget conversions -/

/-- `InteractiveImageLabel.wheelEvent`: multiply the scale factor by 1.2
(wheel up) or 0.8 (wheel down), then clamp with
`max(0.1, min(5.0, scale_factor))`. -/
def wheelUpdate (scaleFactor : ℚ) (up : Bool) : ℚ :=
  max (1/10) (min 5 (scaleFactor * (if up then 12/10 else 8/10)))

/-- `PDFImageExtractor.zoom_changed`: the slider value becomes
`value / 100.0`, with no further clamping. -/
def sliderScale (value : ℤ) : ℚ := (value : ℚ) / 100

/-- The zoom slider's range clamp: `initUI` configures the `QSlider` with
`setRange(10, 500)`, so every value the slider can report lies in
`[10, 500]` (Qt clamps requests outside the range to the nearest bound). -/
def sliderClamp (v : ℤ) : ℤ := max 10 (min 500 v)

/-- The grid-size spin box's range clamp: `initUI` configures the
`QSpinBox` with `setRange(10, 200)`, so every grid size the renderer can
receive lies in `[10, 200]` (Qt clamps requests outside the range). -/
def spinClamp (v : ℤ) : ℤ := max 10 (min 200 v)

/-- `InteractiveImageLabel.widget_to_image_coords`, one axis: subtract the
centered draw origin `(widgetExtent - scaledExtent) // 2 + panOffset`
(Python `//` floors) and divide by the scale factor, truncating with
`int(...)`. -/
def widget_to_image (widgetExtent scaledExtent panOffset widgetPos : ℤ)
    (scaleFactor : ℚ) : ℤ :=
  let drawPos := (widgetExtent - scaledExtent).fdiv 2 + panOffset
  pyInt (((widgetPos - drawPos : ℤ) : ℚ) / scaleFactor)

/-- The full right-click pipeline of `InteractiveImageLabel.mousePressEvent`
followed by `extract_data_at_point`: the widget point is converted to image
coordinates (one `widget_to_image` per axis), those to PDF coordinates, and
the manual `DataPoint` records the resulting integers. -/
def clickDataPoint (r : Rect) (pw ph : ℚ) (W H cw ch panx pany wx wy : ℤ)
    (scale : ℚ) (blocks : Blocks) (idx : ℕ) : DataPoint :=
  let ix := widget_to_image W cw panx wx scale
  let iy := widget_to_image H ch pany wy scale
  manualDataPoint blocks (image_to_pdf_x r pw ix) (image_to_pdf_y r ph iy) idx

/-! ## Grid overlay -/

/-- One grid-line while-loop of `create_grid_overlay`, fuelled.  The walk
starts at `start` (the rectangle's low edge on this axis), draws a line at
`int((cur - start) * scale)` whenever that pixel lies in `[0, bound]`, and
advances by `grid` until `cur` exceeds `stop` (the high edge).  `none`
means the fuel ran out before the loop finished; `some lines` is the
finished loop's list of drawn pixel positions. -/
def gridWalk (start stop grid scale : ℚ) (bound : ℤ) :
    ℕ → ℚ → Option (List ℤ)
  | 0, _ => none
  | fuel + 1, cur =>
    if cur ≤ stop then
      match gridWalk start stop grid scale bound fuel (cur + grid) with
      | none => none
      | some rest =>
        let px := pyInt ((cur - start) * scale)
        some (if 0 ≤ px ∧ px ≤ bound then px :: rest else rest)
    else
      some []

/-! ## Session image list and the marker filter -/

/-- The identifying fields of one entry of `self.image_data`, as built by
`load_pdf`: the page number and the index of the image within its page
(`enumerate(self.doc.get_page_images(page_number))`, restarting at 0 on
every page). -/
structure ImageInfo where
  page_number : ℕ
  image_index : ℕ
deriving DecidableEq, Repr

/-- `load_pdf`'s construction of `self.image_data`, given how many images
each page holds: pages in order, and within a page the per-page image index
counts from 0. -/
def loadImageInfos (imagesPerPage : List ℕ) : List ImageInfo :=
  (imagesPerPage.enum.map
    (fun pc => (List.range pc.2).map (fun ii => ImageInfo.mk pc.1 ii))).flatten

/-- The marker filter of `create_grid_overlay`: a stored data point is
drawn on the rendered image exactly when its `image_index` field equals the
rendered image's (per-page) `image_index`. -/
def drawnPoints (extracted : List DataPoint) (info : ImageInfo) :
    List DataPoint :=
  extracted.filter (fun p => p.image_index == info.image_index)


/-! ## Helper lemmas -/

lemma pyInt_of_nonneg {q : ℚ} (h : 0 ≤ q) : pyInt q = ⌊q⌋ := if_pos h

lemma pyInt_of_neg {q : ℚ} (h : ¬ 0 ≤ q) : pyInt q = ⌈q⌉ := if_neg h

lemma pyInt_intCast (n : ℤ) : pyInt ((n : ℤ) : ℚ) = n := by
  unfold pyInt
  split <;> simp

lemma gridWalk_isSome_of (start stop grid scale : ℚ) (bound : ℤ) :
    ∀ (n : ℕ) (cur : ℚ), stop < cur + n * grid →
      (gridWalk start stop grid scale bound (n + 1) cur).isSome := by
  intro n
  induction n with
  | zero =>
    intro cur h
    rw [gridWalk, if_neg (by push_cast at h; linarith)]
    simp
  | succ k ih =>
    intro cur h
    rw [gridWalk]
    by_cases hc : cur ≤ stop
    · rw [if_pos hc]
      have h2 : stop < (cur + grid) + (k : ℚ) * grid := by push_cast at h ⊢; linarith
      have hk := ih (cur + grid) h2
      cases heq : gridWalk start stop grid scale bound (k + 1) (cur + grid) with
      | none => rw [heq] at hk; simp at hk
      | some rest => simp [heq]
    · rw [if_neg hc]
      simp

lemma gridWalk_exists_fuel (start stop grid scale : ℚ) (bound : ℤ)
    (hg : 0 < grid) (cur : ℚ) :
    ∃ f, (gridWalk start stop grid scale bound f cur).isSome := by
  obtain ⟨n, hn⟩ := exists_nat_gt ((stop - cur) / grid)
  refine ⟨n + 1, gridWalk_isSome_of start stop grid scale bound n cur ?_⟩
  have h2 := (div_lt_iff₀ hg).mp hn
  linarith

lemma flatMap_allSpans {α : Type} (blocks : Blocks) (g : TextSpan → List α) :
    blocks.flatMap (fun b => b.flatMap (fun line => line.flatMap g)) =
      (allSpans blocks).flatMap g := by
  unfold allSpans
  induction blocks with
  | nil => rfl
  | cons b rest ih =>
    rw [List.flatMap_cons, List.flatMap_cons, List.flatMap_append, ih]
    congr 1
    exact (List.flatMap_assoc b (fun line => line) g).symm

lemma filterMap_builder_proj (ms : List String) (f : ℚ → DataPoint)
    (t : ℚ × ℚ × String × ℕ)
    (hf : ∀ v, ((f v).pdf_x, (f v).pdf_y, (f v).source, (f v).image_index) = t) :
    ((ms.filterMap (fun n => (pyFloat n).map f)).map
        (fun p => (p.pdf_x, p.pdf_y, p.source, p.image_index))) =
      (ms.filterMap pyFloat).map (fun _ => t) := by
  induction ms with
  | nil => rfl
  | cons n rest ih =>
    cases h : pyFloat n with
    | none => simp [List.filterMap_cons, h, ih]
    | some v => simp [List.filterMap_cons, h, ih, hf]

/-! ## Claim theorems -/

/-- C3: every scale factor the view state actually stores lies in
`[0.1, 5.0]`: a mouse-wheel update from any prior scale factor is clamped by
`max(0.1, min(5.0, ...))` before being applied, and a slider update can only
carry a value the slider's configured range `[10, 500]` admits, which maps
into `[0.1, 5.0]` under `value / 100.0`. -/
theorem scale_factor_always_clamped :
    (∀ (s : ℚ) (up : Bool),
        1/10 ≤ wheelUpdate s up ∧ wheelUpdate s up ≤ 5) ∧
    (∀ v : ℤ, 1/10 ≤ sliderScale (sliderClamp v) ∧
        sliderScale (sliderClamp v) ≤ 5) := by
  constructor
  · intro s up
    exact ⟨le_max_left _ _, max_le (by norm_num) (min_le_left _ _)⟩
  · intro v
    have h1 : (10 : ℤ) ≤ sliderClamp v := le_max_left _ _
    have h2 : sliderClamp v ≤ 500 := max_le (by norm_num) (min_le_left _ _)
    have h1q : (10 : ℚ) ≤ ((sliderClamp v : ℤ) : ℚ) := by exact_mod_cast h1
    have h2q : ((sliderClamp v : ℤ) : ℚ) ≤ 500 := by exact_mod_cast h2
    unfold sliderScale
    exact ⟨by linarith, by linarith⟩

/-- C5 counterexample: a grid-interval request of 0 is not rejected — no
`InvalidConfiguration` value exists in the program.  The spin box (range
`[10, 200]`) clamps the request to 10 and the renderer then draws a full
grid: on a rectangle of document width 20 (scale 1, pixmap width 20) the
vertical walk finishes with three drawn lines, not zero. -/
theorem grid_interval_zero_not_rejected :
    spinClamp 0 = 10 ∧
    gridWalk 0 20 ((spinClamp 0 : ℤ) : ℚ) 1 20 4 0 = some [0, 10, 20] ∧
    some [0, 10, 20] ≠ (some ([] : List ℤ)) := by
  have h : spinClamp 0 = 10 := by decide
  refine ⟨h, ?_, by decide⟩
  rw [h]
  norm_num [gridWalk, pyInt]

/-- C5 amended: a grid-interval request of 0 or negative never reaches the
renderer as such: the spin box configured by `initUI` clamps every request
into `[10, 200]`, so the effective interval is positive; the renderer itself
performs no validation and draws the grid with the clamped interval. -/
theorem grid_interval_spinbox_clamped :
    (∀ v : ℤ, 10 ≤ spinClamp v ∧ spinClamp v ≤ 200 ∧ 0 < spinClamp v) ∧
    spinClamp 0 = 10 ∧ spinClamp (-7) = 10 := by
  refine ⟨fun v => ⟨le_max_left _ _, max_le (by norm_num) (min_le_left _ _), ?_⟩,
    by decide, by decide⟩
  exact lt_of_lt_of_le (by norm_num) (le_max_left _ _)

/-- C6 counterexample: rendering over a zero-width document rectangle does
draw grid lines: the degenerate axis falls back to scale 1 and its walk
draws one line at pixel 0, and the non-degenerate axis draws its usual
lines (here at pixels 0, 5, 10). -/
theorem zero_width_rect_draws_lines :
    (Rect.mk 5 0 5 100).width = 0 ∧
    safeScale 10 (Rect.mk 5 0 5 100).width = 1 ∧
    gridWalk 5 5 50 (safeScale 10 (Rect.mk 5 0 5 100).width) 10 2 5 = some [0] ∧
    gridWalk 0 100 50 (safeScale 10 (Rect.mk 5 0 5 100).height) 10 4 0 =
      some [0, 5, 10] ∧
    some [0] ≠ (some ([] : List ℤ)) := by
  refine ⟨by norm_num [Rect.width], by norm_num [safeScale, Rect.width], ?_, ?_,
    by decide⟩
  · norm_num [gridWalk, safeScale, Rect.width, pyInt]
  · norm_num [gridWalk, safeScale, Rect.height, pyInt]

/-- C6 amended: on a zero-extent axis the renderer falls back to scale
factor 1 and its walk terminates without crashing, drawing exactly one grid
line at pixel 0 (the degenerate edge) rather than no line. -/
theorem degenerate_axis_single_line (x0 grid : ℚ) (pw : ℤ)
    (hg : 0 < grid) (hpw : 0 ≤ pw) :
    safeScale pw 0 = 1 ∧
    gridWalk x0 x0 grid (safeScale pw 0) pw 2 x0 = some [0] := by
  have hs : safeScale pw 0 = 1 := by simp [safeScale]
  refine ⟨hs, ?_⟩
  rw [hs, gridWalk, if_pos le_rfl, gridWalk, if_neg (by linarith)]
  have hz : pyInt 0 = 0 := by norm_num [pyInt]
  simp [hz, hpw]

/-- Witness for the C6 amended theorem at `x0 = 5`, interval 50, pixmap
width 10. -/
theorem degenerate_axis_single_line_witness :
    (0 : ℚ) < 50 ∧ (0 : ℤ) ≤ 10 ∧
    (safeScale 10 0 = 1 ∧ gridWalk 5 5 50 (safeScale 10 0) 10 2 5 = some [0]) :=
  ⟨by norm_num, by norm_num, degenerate_axis_single_line 5 50 10 (by norm_num) (by norm_num)⟩

/-- C9: for every strictly positive grid interval and any (finite,
rational) rectangle bounds, both grid-line while-loops of
`create_grid_overlay` terminate: the vertical walk from the left edge and
the horizontal walk from the bottom edge each advance by the interval, and
enough fuel makes the loop finish (`isSome`) once the opposite edge is
exceeded. -/
theorem grid_walks_terminate (r : Rect) (grid sx sy : ℚ) (pw ph : ℤ)
    (hg : 0 < grid) :
    (∃ f, (gridWalk r.x0 r.x1 grid sx pw f r.x0).isSome) ∧
    (∃ f, (gridWalk r.y0 r.y1 grid sy ph f r.y0).isSome) :=
  ⟨gridWalk_exists_fuel r.x0 r.x1 grid sx pw hg r.x0,
   gridWalk_exists_fuel r.y0 r.y1 grid sy ph hg r.y0⟩

/-- Witness for C9 at rectangle `(0, 0, 100, 200)`, interval 50. -/
theorem grid_walks_terminate_witness :
    (0 : ℚ) < 50 ∧
    ((∃ f, (gridWalk (Rect.mk 0 0 100 200).x0 (Rect.mk 0 0 100 200).x1 50 1 10 f
        (Rect.mk 0 0 100 200).x0).isSome) ∧
     (∃ f, (gridWalk (Rect.mk 0 0 100 200).y0 (Rect.mk 0 0 100 200).y1 50 1 10 f
        (Rect.mk 0 0 100 200).y0).isSome)) :=
  ⟨by norm_num, grid_walks_terminate (Rect.mk 0 0 100 200) 50 1 1 10 10 (by norm_num)⟩

/-- C1: evaluation of the point-query scan at the failing input.  With one
block holding two lines — line 1 with span "12", line 2 with span "34" —
`extract_data_at_point` returns "34": its `break` leaves only the span
loop, so a later line's first match overwrites the stored value, whereas
the first numeric substring in source encounter order (what claim C1 and
the spec state) is "12". -/
theorem point_query_overwrites_earlier_match :
    extractValueAtPoint
        [[[TextSpan.mk "12" 0 0 1 1], [TextSpan.mk "34" 0 0 1 1]]] = some "34" ∧
    firstValueSpecOrder
        [[[TextSpan.mk "12" 0 0 1 1], [TextSpan.mk "34" 0 0 1 1]]] = some "12" ∧
    (some "34" : Option String) ≠ some "12" :=
  ⟨by decide, by decide, by decide⟩

/-- C4: evaluation of the marker filter at the failing input.  A document
with two pages, one image each, yields `image_data` entries `⟨0, 0⟩` and
`⟨1, 0⟩` (page, per-page image index).  A manual point created while combo
index 0 displays image `⟨0, 0⟩` stores `image_index = 0` — the global
combo-box index.  Rendering the other image `⟨1, 0⟩` compares the stored
global index with the rendered image's per-page index (also 0), keeps the
point, and draws a marker for an image that does not own it. -/
theorem marker_filter_identifier_mismatch :
    loadImageInfos [1, 1] = [ImageInfo.mk 0 0, ImageInfo.mk 1 0] ∧
    (manualDataPoint [] 0 0 0).image_index = 0 ∧
    drawnPoints [manualDataPoint [] 0 0 0] (ImageInfo.mk 1 0) =
      [manualDataPoint [] 0 0 0] ∧
    ImageInfo.mk 0 0 ≠ ImageInfo.mk 1 0 := by
  refine ⟨by decide, rfl, rfl, by decide⟩

/-- C8: the region scan emits one `DataPoint` per numeric substring that
parses as a float, per span (not only the first per span), each positioned
at the center of its span's bounding box with provenance `"Auto-extracted"`
and the current image index; a match that fails to parse is skipped without
aborting the scan (the `filterMap`).  On the spec's example spans
`["12", "3.4", "no numbers here"]` exactly 2 points are emitted. -/
theorem region_scan_one_point_per_match :
    (∀ (blocks : Blocks) (idx : ℕ),
      (autoExtractData blocks idx).map
          (fun p => (p.pdf_x, p.pdf_y, p.source, p.image_index)) =
        (allSpans blocks).flatMap (fun sp =>
          ((findall (strip sp.text)).filterMap pyFloat).map
            (fun _ => ((sp.x0 + sp.x1) / 2, (sp.y0 + sp.y1) / 2,
              ("Auto-extracted" : String), idx)))) ∧
    (autoExtractData [[[TextSpan.mk "12" 0 0 2 2, TextSpan.mk "3.4" 0 2 2 4,
        TextSpan.mk "no numbers here" 0 4 2 6]]] 5).length = 2 := by
  constructor
  · intro blocks idx
    unfold autoExtractData
    rw [flatMap_allSpans]
    generalize allSpans blocks = spans
    induction spans with
    | nil => rfl
    | cons sp rest ih =>
      rw [List.flatMap_cons, List.flatMap_cons, List.map_append, ih]
      congr 1
      exact filterMap_builder_proj _ _ _ (fun v => rfl)
  · decide

/-- C10: a manually clicked `DataPoint` stores integer document
coordinates: both the widget-to-image and the image-to-document conversion
truncate with Python `int(...)` — truncation toward zero, characterized
below — and the stored coordinates are exactly those integers.
Auto-extracted points, in contrast, store the exact span-bbox center, which
can be fractional (span bbox `(0, 0, 1, 2)` gives `pdf_x = 1/2`, not an
integer). -/
theorem manual_click_integer_coords :
    (∀ (r : Rect) (pw ph : ℚ) (W H cw ch panx pany wx wy : ℤ) (scale : ℚ)
        (blocks : Blocks) (idx : ℕ),
      ∃ a b : ℤ,
        (clickDataPoint r pw ph W H cw ch panx pany wx wy scale blocks idx).pdf_x
            = (a : ℚ) ∧
        (clickDataPoint r pw ph W H cw ch panx pany wx wy scale blocks idx).pdf_y
            = (b : ℚ)) ∧
    (∀ q : ℚ, |((pyInt q : ℤ) : ℚ)| ≤ |q| ∧ |q| < |((pyInt q : ℤ) : ℚ)| + 1 ∧
      0 ≤ ((pyInt q : ℤ) : ℚ) * q) ∧
    ((autoExtractData [[[TextSpan.mk "7" 0 0 1 2]]] 0).map
        (fun p => p.pdf_x) = [1/2] ∧
      ∀ a : ℤ, ((1 : ℚ)/2) ≠ (a : ℚ)) := by
  refine ⟨?_, ?_, ?_, ?_⟩
  · intro r pw ph W H cw ch panx pany wx wy scale blocks idx
    exact ⟨_, _, rfl, rfl⟩
  · intro q
    by_cases h : 0 ≤ q
    · rw [pyInt_of_nonneg h]
      have h0 : (0 : ℚ) ≤ ((⌊q⌋ : ℤ) : ℚ) := by exact_mod_cast Int.floor_nonneg.mpr h
      rw [abs_of_nonneg h, abs_of_nonneg h0]
      exact ⟨Int.floor_le q, Int.lt_floor_add_one q, mul_nonneg h0 h⟩
    · rw [pyInt_of_neg h]
      push_neg at h
      have hc : ((⌈q⌉ : ℤ) : ℚ) ≤ 0 := by
        exact_mod_cast Int.ceil_le.mpr (by exact_mod_cast h.le)
      rw [abs_of_nonpos h.le, abs_of_nonpos hc]
      refine ⟨neg_le_neg (Int.le_ceil q), ?_, ?_⟩
      · have := Int.ceil_lt_add_one q
        linarith
      · have h2 := mul_nonneg (neg_nonneg.mpr hc) (neg_nonneg.mpr h.le)
        rw [neg_mul_neg] at h2
        exact h2
  · have h1 : findall (strip "7") = ["7"] := by decide
    have h2 : pyFloatParse "7" = some (false, 7, 0) := by decide
    simp [autoExtractData, h1, pyFloat, h2]
  · intro a h
    have h2 : (2 : ℚ) * (a : ℚ) = 1 := by rw [← h]; norm_num
    have h3 : (2 : ℤ) * a = 1 := by exact_mod_cast h2
    omega

/-- C7 counterexample: for the document rectangle `(0, 0, 100, 200)` and an
image 4 pixels tall, the document-to-pixel conversion maps document y = 0
to pixel row 4 — the pixel height, one past the last pixel row 3 — so
"document y = 0 maps to the last pixel row" fails on the code. -/
theorem doc_y_zero_not_last_row :
    pdf_to_pixel_y (Rect.mk 0 0 100 200)
        (safeScale 4 (Rect.mk 0 0 100 200).height) 0 = 4 ∧
    (4 : ℤ) ≠ 4 - 1 := by
  refine ⟨?_, by decide⟩
  norm_num [pdf_to_pixel_y, safeScale, Rect.height, pyInt]

/-- C7 amended: the conversion computes
`docY = imageRect.y1 - imagePixel.y * (imageRect.height / pixelHeight)`, so
pixel row 0 maps to document y = y1 (for the rectangle `(0, 0, 100, 200)`,
row 0 maps to document y = 200) and the inverse conversion places document
y = y1 at pixel row 0; document y = y0, however, maps to pixel row
`pixelHeight` — one past the last pixel row `pixelHeight - 1` — not to the
last pixel row. -/
theorem axis_flip_edge_rows (r : Rect) (ph : ℤ) (hh : 0 < r.height) :
    pdf_to_pixel_y r (safeScale ph r.height) r.y1 = 0 ∧
    pdf_to_pixel_y r (safeScale ph r.height) r.y0 = ph ∧
    image_to_pdf_y (Rect.mk 0 0 100 200) 400 0 = 200 := by
  have hne : r.height ≠ 0 := ne_of_gt hh
  have hs : safeScale ph r.height = (ph : ℚ) / r.height := if_pos hh
  refine ⟨?_, ?_, ?_⟩
  · unfold pdf_to_pixel_y
    rw [sub_self, zero_mul]
    norm_num [pyInt]
  · unfold pdf_to_pixel_y
    rw [hs]
    have hcancel : (r.y1 - r.y0) * ((ph : ℚ) / r.height) = (ph : ℚ) := by
      show r.height * ((ph : ℚ) / r.height) = (ph : ℚ)
      field_simp
    rw [hcancel]
    exact pyInt_intCast ph
  · norm_num [image_to_pdf_y, Rect.height, pyInt]

/-- Witness for the C7 amended theorem at rectangle `(0, 0, 100, 200)` and
pixel height 4. -/
theorem axis_flip_edge_rows_witness :
    (0 : ℚ) < (Rect.mk 0 0 100 200).height ∧
    (pdf_to_pixel_y (Rect.mk 0 0 100 200)
        (safeScale 4 (Rect.mk 0 0 100 200).height) (Rect.mk 0 0 100 200).y1 = 0 ∧
     pdf_to_pixel_y (Rect.mk 0 0 100 200)
        (safeScale 4 (Rect.mk 0 0 100 200).height) (Rect.mk 0 0 100 200).y0 = 4 ∧
     image_to_pdf_y (Rect.mk 0 0 100 200) 400 0 = 200) :=
  ⟨by norm_num [Rect.height],
   axis_flip_edge_rows (Rect.mk 0 0 100 200) 4 (by norm_num [Rect.height])⟩

/-- C2 counterexample: with the nondegenerate rectangle `(0, 0, 1, 1)`
(width 1) and an image 3 pixels wide, the in-bounds pixel x = 2 round-trips
to pixel 0: the `int(...)` truncation in document space loses up to one
document unit, which here spans 3 pixels, so the round trip is NOT within
one pixel. -/
theorem roundtrip_exceeds_one_pixel :
    (0 : ℚ) < (Rect.mk 0 0 1 1).width ∧ (0 : ℤ) < 3 ∧
    (0 : ℤ) ≤ 2 ∧ (2 : ℤ) < 3 ∧
    roundTripX (Rect.mk 0 0 1 1) 3 2 = 0 ∧ ¬(|(0 : ℤ) - 2| ≤ 1) := by
  refine ⟨by norm_num [Rect.width], by decide, by decide, by decide, ?_, by decide⟩
  norm_num [roundTripX, image_to_pdf_x, pdf_to_pixel_x, safeScale, Rect.width, pyInt]

/-- Both truncation branches of Python `int()` stay within one unit of the
raw value, whatever its sign: `q - 1 < int(q) < q + 1`. -/
lemma pyInt_near (q : ℚ) : q - 1 < ((pyInt q : ℤ) : ℚ) ∧ ((pyInt q : ℤ) : ℚ) < q + 1 := by
  unfold pyInt
  split
  · exact ⟨Int.sub_one_lt_floor q, lt_of_le_of_lt (Int.floor_le q) (by linarith)⟩
  · exact ⟨by linarith [Int.le_ceil q], Int.ceil_lt_add_one q⟩

/-- A value within one of a nonnegative integer truncates (toward zero) to
within one of that integer. -/
lemma pyInt_roundtrip_bound (v : ℚ) (p : ℤ) (hp : 0 ≤ p)
    (h1 : (p : ℚ) - 1 < v) (h2 : v < (p : ℚ) + 1) :
    |pyInt v - p| ≤ 1 := by
  by_cases hv : 0 ≤ v
  · rw [pyInt_of_nonneg hv]
    have hub : ⌊v⌋ ≤ p := by
      have h3 : ⌊v⌋ < p + 1 :=
        Int.floor_lt.mpr (show v < ((p + 1 : ℤ) : ℚ) by push_cast; linarith)
      omega
    have hlb : p - 1 ≤ ⌊v⌋ := Int.le_floor.mpr (by push_cast; linarith)
    rw [abs_le]
    omega
  · rw [pyInt_of_neg hv]
    push_neg at hv
    have hp0 : p = 0 := by
      have h3 : (p : ℚ) < 1 := by linarith
      have h4 : p < 1 := by exact_mod_cast h3
      omega
    have hpq : (p : ℚ) = 0 := by rw [hp0]; norm_num
    have hc1 : ⌈v⌉ ≤ 0 := Int.ceil_le.mpr (by push_cast; linarith)
    have hc2 : -1 < ⌈v⌉ := Int.lt_ceil.mpr (by push_cast; linarith)
    rw [abs_le]
    omega

/-- C2 amended: the round trip pixel→document→pixel is within one pixel of
the original per axis provided each pixel spans at least one document unit
on that axis (pixel count at most the document extent) and the rectangle
and pixel dimensions are nondegenerate, for any rectangle origin.  When an
axis has more pixels than document units the `int(...)` truncation in
document space loses up to one document unit — several pixels — and the
bound fails (see the counterexample). -/
theorem roundtrip_within_one_pixel (r : Rect) (pw ph px py : ℤ)
    (hw : 0 < r.width) (hh : 0 < r.height)
    (hpw : 0 < pw) (hph : 0 < ph)
    (hwle : (pw : ℚ) ≤ r.width) (hhle : (ph : ℚ) ≤ r.height)
    (hpx : 0 ≤ px) (_hpxw : px ≤ pw) (hpy : 0 ≤ py) (_hpyh : py ≤ ph) :
    |roundTripX r pw px - px| ≤ 1 ∧ |roundTripY r ph py - py| ≤ 1 := by
  constructor
  · -- x axis
    have hpwq : (0 : ℚ) < (pw : ℚ) := by exact_mod_cast hpw
    have hsp : 0 < (pw : ℚ) / r.width := div_pos hpwq hw
    have hsp1 : (pw : ℚ) / r.width ≤ 1 := (div_le_one hw).mpr hwle
    have hkey : (px : ℚ) * (r.width / (pw : ℚ)) * ((pw : ℚ) / r.width) = (px : ℚ) := by
      field_simp
    have hnear := pyInt_near (r.x0 + (px : ℚ) * (r.width / (pw : ℚ)))
    have hrt : roundTripX r pw px =
        pyInt ((((pyInt (r.x0 + (px : ℚ) * (r.width / (pw : ℚ))) : ℤ) : ℚ) - r.x0) *
          ((pw : ℚ) / r.width)) := by
      rw [roundTripX, image_to_pdf_x, pdf_to_pixel_x, safeScale, if_pos hw]
    rw [hrt]
    apply pyInt_roundtrip_bound _ px hpx
    · have hlow : ((px : ℚ) * (r.width / (pw : ℚ)) - 1) * ((pw : ℚ) / r.width) <
          ((((pyInt (r.x0 + (px : ℚ) * (r.width / (pw : ℚ))) : ℤ) : ℚ) - r.x0) *
            ((pw : ℚ) / r.width)) :=
        mul_lt_mul_of_pos_right (by linarith [hnear.1]) hsp
      have hexp : ((px : ℚ) * (r.width / (pw : ℚ)) - 1) * ((pw : ℚ) / r.width) =
          (px : ℚ) - (pw : ℚ) / r.width := by
        rw [sub_mul, hkey, one_mul]
      rw [hexp] at hlow
      linarith
    · have hhigh : ((((pyInt (r.x0 + (px : ℚ) * (r.width / (pw : ℚ))) : ℤ) : ℚ) - r.x0) *
          ((pw : ℚ) / r.width)) <
          ((px : ℚ) * (r.width / (pw : ℚ)) + 1) * ((pw : ℚ) / r.width) :=
        mul_lt_mul_of_pos_right (by linarith [hnear.2]) hsp
      have hexp : ((px : ℚ) * (r.width / (pw : ℚ)) + 1) * ((pw : ℚ) / r.width) =
          (px : ℚ) + (pw : ℚ) / r.width := by
        rw [add_mul, hkey, one_mul]
      rw [hexp] at hhigh
      linarith
  · -- y axis (the axis flip swaps which side of pyInt_near feeds which bound)
    have hphq : (0 : ℚ) < (ph : ℚ) := by exact_mod_cast hph
    have hsp : 0 < (ph : ℚ) / r.height := div_pos hphq hh
    have hsp1 : (ph : ℚ) / r.height ≤ 1 := (div_le_one hh).mpr hhle
    have hkey : (py : ℚ) * (r.height / (ph : ℚ)) * ((ph : ℚ) / r.height) = (py : ℚ) := by
      field_simp
    have hnear := pyInt_near (r.y1 - (py : ℚ) * (r.height / (ph : ℚ)))
    have hrt : roundTripY r ph py =
        pyInt ((r.y1 - ((pyInt (r.y1 - (py : ℚ) * (r.height / (ph : ℚ))) : ℤ) : ℚ)) *
          ((ph : ℚ) / r.height)) := by
      rw [roundTripY, image_to_pdf_y, pdf_to_pixel_y, safeScale, if_pos hh]
    rw [hrt]
    apply pyInt_roundtrip_bound _ py hpy
    · have hlow : ((py : ℚ) * (r.height / (ph : ℚ)) - 1) * ((ph : ℚ) / r.height) <
          ((r.y1 - ((pyInt (r.y1 - (py : ℚ) * (r.height / (ph : ℚ))) : ℤ) : ℚ)) *
            ((ph : ℚ) / r.height)) :=
        mul_lt_mul_of_pos_right (by linarith [hnear.2]) hsp
      have hexp : ((py : ℚ) * (r.height / (ph : ℚ)) - 1) * ((ph : ℚ) / r.height) =
          (py : ℚ) - (ph : ℚ) / r.height := by
        rw [sub_mul, hkey, one_mul]
      rw [hexp] at hlow
      linarith
    · have hhigh : ((r.y1 - ((pyInt (r.y1 - (py : ℚ) * (r.height / (ph : ℚ))) : ℤ) : ℚ)) *
          ((ph : ℚ) / r.height)) <
          ((py : ℚ) * (r.height / (ph : ℚ)) + 1) * ((ph : ℚ) / r.height) :=
        mul_lt_mul_of_pos_right (by linarith [hnear.1]) hsp
      have hexp : ((py : ℚ) * (r.height / (ph : ℚ)) + 1) * ((ph : ℚ) / r.height) =
          (py : ℚ) + (ph : ℚ) / r.height := by
        rw [add_mul, hkey, one_mul]
      rw [hexp] at hhigh
      linarith

/-- Witness for the C2 amended theorem at a negative-origin rectangle
`(-4, -4, 4, 4)` with a 2×2 pixel image and pixel `(1, 1)`. -/
theorem roundtrip_within_one_pixel_witness :
    ((0 : ℚ) < (Rect.mk (-4) (-4) 4 4).width ∧ (0 : ℤ) < 2 ∧
      ((2 : ℤ) : ℚ) ≤ (Rect.mk (-4) (-4) 4 4).width ∧ (0 : ℤ) ≤ 1 ∧ (1 : ℤ) ≤ 2) ∧
    (|roundTripX (Rect.mk (-4) (-4) 4 4) 2 1 - 1| ≤ 1 ∧
     |roundTripY (Rect.mk (-4) (-4) 4 4) 2 1 - 1| ≤ 1) :=
  ⟨⟨by norm_num [Rect.width], by norm_num, by norm_num [Rect.width], by norm_num,
      by norm_num⟩,
   roundtrip_within_one_pixel (Rect.mk (-4) (-4) 4 4) 2 2 1 1
     (by norm_num [Rect.width]) (by norm_num [Rect.height])
     (by norm_num) (by norm_num)
     (by norm_num [Rect.width]) (by norm_num [Rect.height])
     (by norm_num) (by norm_num) (by norm_num) (by norm_num)⟩
